import Mathlib

set_option maxRecDepth 8192

/-!
Verification of the AfriMail Pro campaign email dispatch pipeline.

This file shallowly embeds the Python source of the pipeline
(backend/services/email_service.py, backend/services/tracking_service.py,
backend/models/email_models.py, backend/models/campaign_models.py,
backend/models/contact_models.py) as executable Lean definitions and
proves or refutes the specification's claims about it.

Conventions: Django model instances become Lean structures; where the
distinction between an in-memory instance and its persisted database row
matters, both are passed explicitly and `save()` copies the in-memory
value into the row; timestamps are integers (seconds); Python strings are
Lean strings, with Python's `str.replace`, `in`, `str.startswith`,
`str.title` and `str.lower` re-implemented over character lists so that
their behaviour can be computed and reasoned about.
-/

namespace AfriMail

/-! ## Python string primitives -/

/-- Python `s.startswith(pat)` over char lists (`startsWithChars pat s`). -/
def startsWithChars : List Char → List Char → Bool
  | [], _ => true
  | _ :: _, [] => false
  | a :: as, b :: bs => a == b && startsWithChars as bs

/-- Python `pat in s` over char lists (`containsChars pat s`). -/
def containsChars (pat : List Char) : List Char → Bool
  | [] => startsWithChars pat []
  | c :: rest => startsWithChars pat (c :: rest) || containsChars pat rest

/-- Python `s.replace(pat, rep)`, fuel-indexed so that the recursion is
structural and computable by the kernel; every step consumes at least one
character of `s`, so `fuel = s.length` suffices for a nonempty pattern. -/
def replaceGo (pat rep : List Char) : Nat → List Char → List Char
  | 0, s => s
  | _ + 1, [] => []
  | fuel + 1, c :: rest =>
    if startsWithChars pat (c :: rest) then
      rep ++ replaceGo pat rep fuel ((c :: rest).drop pat.length)
    else
      c :: replaceGo pat rep fuel rest

/-- Python `pat in s` on strings. -/
def pyContains (s pat : String) : Bool := containsChars pat.data s.data

/-- Python `s.replace(pat, rep)` on strings (as used by the source the
pattern is always nonempty; an empty pattern is mapped to the identity). -/
def pyReplace (s pat rep : String) : String :=
  if pat.data.isEmpty then s
  else String.mk (replaceGo pat.data rep.data s.data.length s.data)

/-- Python `s.lower()` (ASCII approximation, as in the source's use). -/
def pyLower (s : String) : String := String.mk (s.data.map Char.toLower)

/-- Python `s.title()` (ASCII approximation): the first letter of every
alphabetic run is uppercased, the rest lowercased. -/
def titleAux : Bool → List Char → List Char
  | _, [] => []
  | prevAlpha, c :: rest =>
    if c.isAlpha then
      (if prevAlpha then c.toLower else c.toUpper) :: titleAux true rest
    else c :: titleAux false rest

def pyTitle (s : String) : String := String.mk (titleAux false s.data)

/-- Python `s.split(sep)[0]` for a one-character separator: the characters
before the first occurrence, or all of them if the separator is absent. -/
def takeBeforeChar (sep : Char) : List Char → List Char
  | [] => []
  | c :: rest => if c == sep then [] else c :: takeBeforeChar sep rest

/-! ## Contact (backend/models/contact_models.py)

The fields of `Contact` used by the dispatch pipeline. Nullable text
columns are `Option String`; `none` is Python `None`. Python truthiness
on such a field (`if self.first_name:`) is false for both `None` and the
empty string, captured by `truthy`. -/

inductive SubscriptionStatus
  | SUBSCRIBED | UNSUBSCRIBED | BOUNCED | COMPLAINED | PENDING | BLACKLISTED
deriving DecidableEq, Repr

structure Contact where
  id : String
  userId : Nat
  email : String
  first_name : Option String := none
  last_name : Option String := none
  phone : Option String := none
  company : Option String := none
  job_title : Option String := none
  city : Option String := none
  country : Option String := none
  industry : Option String := none
  custom_fields : List (String × String) := []
  subscription_status : SubscriptionStatus := .SUBSCRIBED
  is_subscribed : Bool := true
  unsubscribe_date : Option Int := none
  unsubscribe_reason : Option String := none
deriving DecidableEq, Repr

/-- Python truthiness of a nullable string field. -/
def truthy : Option String → Bool
  | none => false
  | some s => !s.data.isEmpty

/-- Python `a or b` for a nullable string `a` and default `b`. -/
def pyOr (a : Option String) (b : String) : String :=
  if truthy a then a.getD "" else b

/-- `Contact.get_full_name`. -/
def Contact.get_full_name (c : Contact) : String :=
  if truthy c.first_name && truthy c.last_name then
    c.first_name.getD "" ++ " " ++ c.last_name.getD ""
  else if truthy c.first_name then c.first_name.getD ""
  else if truthy c.last_name then c.last_name.getD ""
  else pyTitle (String.mk (takeBeforeChar '@' c.email.data))

/-- Python `dict` update of an association list: an existing key is
overwritten in place, a new key is appended (insertion order). -/
def setKey : List (String × String) → String → String → List (String × String)
  | [], k, v => [(k, v)]
  | (k', v') :: rest, k, v =>
    if k' == k then (k', v) :: rest else (k', v') :: setKey rest k v

def dictUpdate (base upd : List (String × String)) : List (String × String) :=
  upd.foldl (fun acc kv => setKey acc kv.1 kv.2) base

/-- `Contact.get_personalization_data`: the fixed attribute dictionary,
then `data.update(self.custom_fields)`. -/
def Contact.get_personalization_data (c : Contact) : List (String × String) :=
  dictUpdate
    [("first_name", pyOr c.first_name "Valued Customer"),
     ("last_name", pyOr c.last_name ""),
     ("full_name", c.get_full_name),
     ("email", c.email),
     ("company", pyOr c.company ""),
     ("job_title", pyOr c.job_title ""),
     ("phone", pyOr c.phone ""),
     ("city", pyOr c.city ""),
     ("country", pyOr c.country ""),
     ("industry", pyOr c.industry "")]
    c.custom_fields

/-! ## EmailService content helpers (backend/services/email_service.py) -/

/-- `EmailService.personalize_content`: replaces `\x7b\x7bkey\x7d\x7d`
for each key of the personalization data, in dictionary order; returns
the content unchanged when there is no contact or the content is empty
(Python `if not contact or not content`). -/
def personalize_content (content : String) (contact : Option Contact) : String :=
  match contact with
  | none => content
  | some c =>
    if content.data.isEmpty then content
    else
      c.get_personalization_data.foldl
        (fun acc kv => pyReplace acc ("\x7b\x7b" ++ kv.1 ++ "\x7d\x7d") kv.2) content

/-- The unsubscribe footer block built by `EmailService.add_unsubscribe_link`
(the Python triple-quoted f-string, with the surrounding user's company and
profile address as parameters). -/
def unsubscribeFooter (siteUrl company profileAddress : String)
    (c : Contact) : String :=
  "\n        <div style=\"text-align: center; font-size: 12px; color: #666; margin-top: 20px; padding: 20px;\">\n            <p>\n                You received this email because you are subscribed to our mailing list.<br>\n                <a href=\"" ++
  siteUrl ++ "/unsubscribe/" ++ c.id ++ "/" ++
  "\" style=\"color: #666;\">Unsubscribe</a> | \n                <a href=\"" ++
  siteUrl ++ "/preferences/" ++ c.id ++ "/" ++
  "\" style=\"color: #666;\">Update Preferences</a>\n            </p>\n            <p style=\"margin-top: 10px;\">\n                " ++
  company ++ "<br>\n                " ++ profileAddress ++
  "\n            </p>\n        </div>\n        "

/-- `EmailService.add_unsubscribe_link`: no-op without a contact; otherwise
the footer is inserted before `</body>` when present, else appended. -/
def add_unsubscribe_link (siteUrl company profileAddress : String)
    (contact : Option Contact) (html : String) : String :=
  match contact with
  | none => html
  | some c =>
    let link := unsubscribeFooter siteUrl company profileAddress c
    if pyContains html "</body>" then
      pyReplace html "</body>" (link ++ "</body>")
    else html ++ link

/-! ## TrackingService link rewriting (backend/services/tracking_service.py)

`create_click_tracking_url` encodes the destination with Python
`base64.urlsafe_b64encode(original_url.encode())`: UTF-8 bytes, then
base64 with the URL-safe alphabet (`-` and `_` instead of `+` and `/`)
and `=` padding. Both directions are modelled byte-for-byte. -/

/-- UTF-8 encoding of one character (as Python `str.encode()`). -/
def utf8Bytes (c : Char) : List Nat :=
  if c.toNat < 0x80 then [c.toNat]
  else if c.toNat < 0x800 then [0xC0 + c.toNat / 64, 0x80 + c.toNat % 64]
  else if c.toNat < 0x10000 then
    [0xE0 + c.toNat / 4096, 0x80 + c.toNat / 64 % 64, 0x80 + c.toNat % 64]
  else
    [0xF0 + c.toNat / 262144, 0x80 + c.toNat / 4096 % 64,
     0x80 + c.toNat / 64 % 64, 0x80 + c.toNat % 64]

/-- UTF-8 bytes of a string (Python `s.encode()`). -/
def strBytes (s : String) : List Nat := s.data.flatMap utf8Bytes

/-- The URL-safe base64 alphabet. -/
def b64Alphabet : List Char :=
  "ABCDEFGHIJKLMNOPQRSTUVWXYZabcdefghijklmnopqrstuvwxyz0123456789-_".data

def b64Char (n : Nat) : Char := b64Alphabet.getD n 'A'

def b64Index (c : Char) : Nat := b64Alphabet.indexOf c

/-- Base64-encode a byte list (with `=` padding), three bytes at a time. -/
def b64EncodeBytes : List Nat → List Char
  | [] => []
  | [a] => [b64Char (a / 4), b64Char (a % 4 * 16), '=', '=']
  | [a, b] => [b64Char (a / 4), b64Char (a % 4 * 16 + b / 16),
               b64Char (b % 16 * 4), '=']
  | a :: b :: c :: rest =>
    b64Char (a / 4) :: b64Char (a % 4 * 16 + b / 16) ::
    b64Char (b % 16 * 4 + c / 64) :: b64Char (c % 64) :: b64EncodeBytes rest

/-- Base64-decode (inverse of `b64EncodeBytes` on well-formed input). -/
def b64DecodeChars : List Char → List Nat
  | a :: b :: c :: d :: rest =>
    if c = '=' then [b64Index a * 4 + b64Index b / 16]
    else if d = '=' then
      [b64Index a * 4 + b64Index b / 16, b64Index b % 16 * 16 + b64Index c / 4]
    else
      (b64Index a * 4 + b64Index b / 16) ::
      (b64Index b % 16 * 16 + b64Index c / 4) ::
      (b64Index c % 4 * 64 + b64Index d) :: b64DecodeChars rest
  | _ => []

/-- Python `base64.urlsafe_b64encode(s.encode()).decode()`. -/
def urlsafe_b64encode (s : String) : String :=
  String.mk (b64EncodeBytes (strBytes s))

/-- `TrackingService.create_click_tracking_url`. -/
def create_click_tracking_url (base_url email_log_id original_url : String) :
    String :=
  base_url ++ "/t/click/" ++ email_log_id ++ "/?url=" ++
    urlsafe_b64encode original_url

/-- The per-hyperlink decision of `TrackingService.add_click_tracking`'s
inner `replace_link`: special and already-tracked URLs are kept, every
other URL is rewritten to the tracking-redirect URL. -/
def replace_link (base_url email_log_id url : String) : String :=
  if startsWithChars base_url.data url.data ||
     startsWithChars "mailto:".data url.data ||
     startsWithChars "tel:".data url.data ||
     startsWithChars "#".data url.data ||
     pyContains (pyLower url) "unsubscribe" then url
  else create_click_tracking_url base_url email_log_id url

/-- `TrackingService.add_click_tracking`, at the level of the href values
matched by its regex `href=["']([^"']+)["']`: `re.sub` applies
`replace_link` to each matched hyperlink independently, so the content
transformation is the pointwise map over the list of matched hrefs. -/
def add_click_tracking (base_url email_log_id : String)
    (hrefs : List String) : List String :=
  hrefs.map (replace_link base_url email_log_id)

/-! ## EmailLog — the SendRecord (backend/models/email_models.py)

One row of the `email_logs` table, restricted to the fields touched by the
delivery-event operations. `metadata['clicked_links']` is the list of
(url, timestamp) entries appended by `mark_clicked`. -/

inductive EmailStatus
  | QUEUED | SENDING | SENT | DELIVERED | OPENED | CLICKED
  | BOUNCED | SOFT_BOUNCED | HARD_BOUNCED | COMPLAINED | UNSUBSCRIBED
  | FAILED | REJECTED | DEFERRED
deriving DecidableEq, Repr

structure DeviceInfo where
  device_type : Option String := none
  browser : Option String := none
  os : Option String := none
deriving DecidableEq, Repr

structure EmailLog where
  status : EmailStatus := .QUEUED
  sent_at : Option Int := none
  opened_at : Option Int := none
  clicked_at : Option Int := none
  bounced_at : Option Int := none
  complained_at : Option Int := none
  unsubscribed_at : Option Int := none
  open_count : Nat := 0
  click_count : Nat := 0
  ip_address : Option String := none
  user_agent : Option String := none
  device_type : Option String := none
  browser : Option String := none
  operating_system : Option String := none
  bounce_type : Option String := none
  bounce_reason : Option String := none
  send_time_ms : Option Nat := none
  error_message : Option String := none
  clicked_links : List (String × Int) := []
  complaint_reason : Option String := none
  unsubscribe_reason : Option String := none
deriving DecidableEq, Repr

/-- `EmailLog.mark_sent`. -/
def mark_sent (now : Int) (ms : Option Nat) (log : EmailLog) : EmailLog :=
  let log := { log with status := .SENT, sent_at := some now }
  match ms with
  | some t => { log with send_time_ms := some t }
  | none => log

/-- `EmailLog.mark_opened`: the status moves to OPENED unless it is already
OPENED or CLICKED; the raw open counter always increments. -/
def mark_opened (now : Int) (ip ua : Option String) (device : Option DeviceInfo)
    (log : EmailLog) : EmailLog :=
  let log :=
    if log.status = .OPENED ∨ log.status = .CLICKED then log
    else { log with status := .OPENED, opened_at := some now }
  let log := { log with open_count := log.open_count + 1 }
  let log := match ip with
    | some i => { log with ip_address := some i }
    | none => log
  let log := match ua with
    | some u => { log with user_agent := some u }
    | none => log
  match device with
  | some d =>
    { log with device_type := d.device_type, browser := d.browser,
               operating_system := d.os }
  | none => log

/-- `EmailLog.mark_clicked`: the status is set to CLICKED unconditionally;
`clicked_at` is only set the first time; the raw click counter always
increments and the clicked link is appended to the metadata. -/
def mark_clicked (now : Int) (link : Option String) (ip ua : Option String)
    (log : EmailLog) : EmailLog :=
  let log := { log with status := .CLICKED }
  let log :=
    if log.clicked_at = none then { log with clicked_at := some now } else log
  let log := { log with click_count := log.click_count + 1 }
  let log := match ip with
    | some i => { log with ip_address := some i }
    | none => log
  let log := match ua with
    | some u => { log with user_agent := some u }
    | none => log
  match link with
  | some u => { log with clicked_links := log.clicked_links ++ [(u, now)] }
  | none => log

/-- `EmailLog.mark_bounced`. -/
def mark_bounced (bounceType : String) (reason : Option String) (now : Int)
    (log : EmailLog) : EmailLog :=
  let st : EmailStatus :=
    if bounceType = "HARD" then .HARD_BOUNCED
    else if bounceType = "SOFT" then .SOFT_BOUNCED
    else .BOUNCED
  { log with status := st, bounce_type := some bounceType,
             bounce_reason := reason, bounced_at := some now }

/-- `EmailLog.mark_complained`. -/
def mark_complained (reason : Option String) (now : Int) (log : EmailLog) :
    EmailLog :=
  let log := { log with status := .COMPLAINED, complained_at := some now }
  match reason with
  | some r => { log with complaint_reason := some r }
  | none => log

/-- `EmailLog.mark_unsubscribed`. -/
def mark_unsubscribed (reason : Option String) (now : Int) (log : EmailLog) :
    EmailLog :=
  let log := { log with status := .UNSUBSCRIBED, unsubscribed_at := some now }
  match reason with
  | some r => { log with unsubscribe_reason := some r }
  | none => log

/-- Modelled from the spec: the §4.6 delivery-state order
(Queued → Sent → Delivered → Opened → Clicked → terminal states), used only
to state what "moving backward" means for claim C10. -/
def statusRank : EmailStatus → Nat
  | .QUEUED => 0
  | .SENDING => 1
  | .SENT => 2
  | .DELIVERED => 3
  | .OPENED => 4
  | .CLICKED => 5
  | .BOUNCED | .SOFT_BOUNCED | .HARD_BOUNCED => 6
  | .COMPLAINED => 6
  | .UNSUBSCRIBED => 6
  | .FAILED | .REJECTED | .DEFERRED => 6

/-! ## Campaign counters and metrics (backend/models/campaign_models.py) -/

/-- The counter and rate fields of `Campaign` touched by
`calculate_metrics` and by the tracking statistics updates. -/
structure Campaign where
  sent_count : Nat := 0
  delivered_count : Nat := 0
  opened_count : Nat := 0
  unique_opens_count : Nat := 0
  clicked_count : Nat := 0
  unique_clicks_count : Nat := 0
  unsubscribed_count : Nat := 0
  bounced_count : Nat := 0
  conversion_count : Nat := 0
  revenue_generated : ℚ := 0
  delivery_rate : ℚ := 0
  open_rate : ℚ := 0
  click_rate : ℚ := 0
  click_to_open_rate : ℚ := 0
  unsubscribe_rate : ℚ := 0
  bounce_rate : ℚ := 0
  conversion_rate : ℚ := 0
  average_order_value : ℚ := 0
deriving DecidableEq, Repr

/-- `Campaign.calculate_metrics`: everything is guarded by
`sent_count > 0`; with `sent_count = 0` no rate field is assigned (the
stored values persist). Zero denominators inside the guard yield 0. -/
def calculate_metrics (c : Campaign) : Campaign :=
  if c.sent_count > 0 then
    let c := { c with
      delivery_rate := (c.delivered_count : ℚ) / (c.sent_count : ℚ) * 100,
      open_rate := if c.delivered_count > 0 then
        (c.unique_opens_count : ℚ) / (c.delivered_count : ℚ) * 100 else 0,
      click_rate := if c.delivered_count > 0 then
        (c.unique_clicks_count : ℚ) / (c.delivered_count : ℚ) * 100 else 0,
      click_to_open_rate := if c.unique_opens_count > 0 then
        (c.unique_clicks_count : ℚ) / (c.unique_opens_count : ℚ) * 100 else 0,
      unsubscribe_rate := if c.delivered_count > 0 then
        (c.unsubscribed_count : ℚ) / (c.delivered_count : ℚ) * 100 else 0,
      bounce_rate := (c.bounced_count : ℚ) / (c.sent_count : ℚ) * 100 }
    if c.conversion_count > 0 then
      { c with
        conversion_rate := if c.delivered_count > 0 then
          (c.conversion_count : ℚ) / (c.delivered_count : ℚ) * 100 else 0,
        average_order_value := c.revenue_generated / (c.conversion_count : ℚ) }
    else c
  else c

/-! ## Open tracking and campaign statistics
(backend/services/tracking_service.py)

`track_email_open` mutates the EmailLog first (`mark_opened`) and only
then counts the OPENED/CLICKED rows for the (campaign, contact) pair to
decide whether the open is "unique". The per-contact interaction log has
no effect on any counter and is omitted. The model keeps one campaign and
its logs; each log row carries its row id and its (campaign, contact)
keys. -/

structure LogRow where
  lid : Nat
  campaign_id : Nat
  contact_id : Nat
  log : EmailLog
deriving DecidableEq, Repr

/-- The `previous_opens` query of
`TrackingService.update_campaign_open_stats`: rows of the pair whose
status is OPENED or CLICKED — counted after `mark_opened` already ran. -/
def previous_opens (logs : List LogRow) (camp contact : Nat) : Nat :=
  (logs.filter (fun r => r.campaign_id == camp && r.contact_id == contact &&
    (r.log.status == .OPENED || r.log.status == .CLICKED))).length

/-- `TrackingService.update_campaign_open_stats`. -/
def update_campaign_open_stats (logs : List LogRow) (campId contactId : Nat)
    (camp : Campaign) : Campaign :=
  let prev := previous_opens logs campId contactId
  let camp :=
    if prev == 1 then { camp with unique_opens_count := camp.unique_opens_count + 1 }
    else camp
  let camp := { camp with opened_count := camp.opened_count + 1 }
  calculate_metrics camp

/-- State of one campaign and its send records. -/
structure TrackState where
  logs : List LogRow
  camp : Campaign
deriving DecidableEq, Repr

/-- `TrackingService.track_email_open`: look the log up by id, mark it
opened, then update the campaign statistics; an unknown id returns
`false` with no change. -/
def track_email_open (st : TrackState) (logId : Nat) (now : Int)
    (ip ua : Option String) (dev : Option DeviceInfo) : TrackState × Bool :=
  match st.logs.find? (fun r => r.lid == logId) with
  | none => (st, false)
  | some row =>
    let newLog := mark_opened now ip ua dev row.log
    let logs := st.logs.map (fun r => if r.lid == logId then
      { r with log := newLog } else r)
    let camp := update_campaign_open_stats logs row.campaign_id row.contact_id st.camp
    ({ logs := logs, camp := camp }, true)

/-- Initial state for the C1 scenario: a single SendRecord (status SENT)
of a campaign that sent to and delivered one recipient. -/
def c1State : TrackState :=
  { logs := [{ lid := 1, campaign_id := 10, contact_id := 20,
               log := { status := .SENT } }],
    camp := { sent_count := 1, delivered_count := 1 } }

/-- The C1 scenario: three open events for the same SendRecord. -/
def c1Final : TrackState :=
  (track_email_open
    ((track_email_open
      ((track_email_open c1State 1 100 none none none).1)
      1 200 none none none).1)
    1 300 none none none).1

/-! ## EmailDomainConfig — the SendingIdentity rate limiter
(backend/models/email_models.py)

`can_send_email` and `increment_send_count` run on a Django model
instance; `save()` persists the instance over the database row. The model
therefore passes the in-memory instance `mem` and the persisted row `db`
separately and returns both: the daily-reset branch and
`increment_send_count` call `save()` (the returned row is the updated
instance), while the hourly-reset branch does not. -/

structure EmailDomainConfig where
  daily_send_limit : Nat := 1000
  hourly_send_limit : Nat := 100
  current_daily_sent : Nat := 0
  current_hourly_sent : Nat := 0
  total_emails_sent : Nat := 0
  last_rate_reset : Int := 0
  last_email_sent : Option Int := none
deriving DecidableEq, Repr

/-- `EmailDomainConfig.can_send_email`: returns the mutated instance, the
persisted row, the decision and the reason message. -/
def can_send_email (now : Int) (mem db : EmailDomainConfig) :
    EmailDomainConfig × EmailDomainConfig × Bool × String :=
  let memdb :=
    if now - mem.last_rate_reset ≥ 86400 then
      let m := { mem with current_daily_sent := 0, last_rate_reset := now }
      (m, m)
    else (mem, db)
  let mem := memdb.1
  let db := memdb.2
  let mem :=
    if now - mem.last_rate_reset ≥ 3600 then
      { mem with current_hourly_sent := 0 }
    else mem
  if mem.current_daily_sent ≥ mem.daily_send_limit then
    (mem, db, false, "Daily send limit reached")
  else if mem.current_hourly_sent ≥ mem.hourly_send_limit then
    (mem, db, false, "Hourly send limit reached")
  else (mem, db, true, "Can send")

/-- `EmailDomainConfig.increment_send_count`: increments the instance's
counters and saves; returns (instance, persisted row), which coincide. -/
def increment_send_count (now : Int) (mem : EmailDomainConfig) :
    EmailDomainConfig × EmailDomainConfig :=
  let m := { mem with
    current_daily_sent := mem.current_daily_sent + 1,
    current_hourly_sent := mem.current_hourly_sent + 1,
    total_emails_sent := mem.total_emails_sent + 1,
    last_email_sent := some now }
  (m, m)

/-! ### Reservation attempts under interleaving

A reservation attempt against a sending identity is `can_send_email`
followed, on success, by `increment_send_count` — each worker on its own
freshly loaded instance. The two racy steps are the load (snapshot of the
row) and the commit (decide on the snapshot, then save); a schedule is a
list of such events. Worker-indexed maps are total functions so that any
worker id is addressable. -/

inductive ResEv
  | load (i : Nat)
  | commit (i : Nat)
deriving DecidableEq, Repr

structure ResSys where
  db : EmailDomainConfig
  snaps : Nat → Option EmailDomainConfig
  results : Nat → Option Bool

/-- One interleaving step: `load i` snapshots the current row into worker
`i`'s instance; `commit i` runs the check on that instance and, on
success, saves the incremented instance over the row (a lost-update
write of `snapshot + 1`). -/
def resStep (now : Int) (sys : ResSys) : ResEv → ResSys
  | .load i => { sys with snaps := fun j => if j == i then some sys.db else sys.snaps j }
  | .commit i =>
    match sys.snaps i with
    | none => sys
    | some snap =>
      let r := can_send_email now snap sys.db
      if r.2.2.1 then
        let inc := increment_send_count now r.1
        { db := inc.2,
          snaps := fun j => if j == i then some inc.1 else sys.snaps j,
          results := fun j => if j == i then some true else sys.results j }
      else
        { db := r.2.1, snaps := sys.snaps,
          results := fun j => if j == i then some false else sys.results j }

def runRes (now : Int) (sys : ResSys) (evs : List ResEv) : ResSys :=
  evs.foldl (resStep now) sys

/-- The number of successful reservations among workers `0..n-1`. -/
def successCount (n : Nat) (sys : ResSys) : Nat :=
  ((List.range n).filter (fun i => sys.results i == some true)).length

/-- The serial (non-overlapping) schedule: each worker loads and commits
before the next one starts. -/
def serialSchedule (n : Nat) : List ResEv :=
  (List.range n).flatMap (fun i => [.load i, .commit i])

/-- Fresh identity with cap `cap`/`hcap` and no sends this window. -/
def freshIdentity (cap hcap : Nat) (last : Int) : EmailDomainConfig :=
  { daily_send_limit := cap, hourly_send_limit := hcap, last_rate_reset := last }

def freshSys (cap hcap : Nat) (last : Int) : ResSys :=
  { db := freshIdentity cap hcap last, snaps := fun _ => none,
    results := fun _ => none }

/-! ## EmailService.send_single_email (backend/services/email_service.py)

The record flow of a campaign send for one recipient: an `EmailLog` row is
created unconditionally (status QUEUED) — there is no lookup of an
existing row for the (campaign, contact) pair and `email_logs` has no
uniqueness constraint on it — then the message is sent and the row is
marked SENT (with the identity's counters incremented) or FAILED. The
content transformations applied to the html (tracking pixel, click
tracking, unsubscribe footer) are the functions modelled above; they do
not touch the record store and are left out of this record-flow model.
The transport outcome is the `sendOk`/`err` input. -/

/-- The failure path of `send_single_email`: `email_log.status = 'FAILED'`,
`email_log.error_message = ...`, `email_log.save()`. -/
def mark_failed (err : String) (log : EmailLog) : EmailLog :=
  { log with status := .FAILED, error_message := some err }

def send_single_email (db : List LogRow) (nextId campId contactId : Nat)
    (domainCfg : Option EmailDomainConfig) (now : Int) (sendOk : Bool)
    (err : String) : List LogRow × Option EmailDomainConfig × Bool :=
  let db := db ++ [{ lid := nextId, campaign_id := campId,
                     contact_id := contactId, log := {} }]
  if sendOk then
    let db := db.map (fun r => if r.lid == nextId then
      { r with log := mark_sent now none r.log } else r)
    (db, domainCfg.map (fun c => (increment_send_count now c).2), true)
  else
    let db := db.map (fun r => if r.lid == nextId then
      { r with log := mark_failed err r.log } else r)
    (db, domainCfg, false)

/-- The SendRecords of a (campaign, recipient) pair. -/
def countPair (db : List LogRow) (camp contact : Nat) : Nat :=
  (db.filter (fun r => r.campaign_id == camp && r.contact_id == contact)).length

/-- First dispatch of campaign 10 to contact 20 (fresh identity). -/
def c2Run1 : List LogRow × Option EmailDomainConfig × Bool :=
  send_single_email [] 1 10 20 (some (freshIdentity 100 100 0)) 0 true ""

/-- Second dispatch of the same campaign to the same contact. -/
def c2Run2 : List LogRow × Option EmailDomainConfig × Bool :=
  send_single_email c2Run1.1 2 10 20 c2Run1.2.1 0 true ""

/-! ## Audience resolution (backend/models/campaign_models.py)

`Campaign.get_target_contacts` starts from the user's contacts filtered
only by the Boolean flag `is_subscribed=True` (never by the
`subscription_status` column), intersects with the target lists' members,
subtracts the exclusion lists' members, and finally filters by the
dynamic segment. Static list membership (`ContactList.get_contacts`)
filters its members by the same flag; dynamic lists and campaign-level
segments resolve through `SegmentationService` (not part of the pipeline
sources), so the resolved segment membership is taken as an input id
list. -/

/-- `ContactList.get_contacts` for a manual list with the given member
ids. -/
def list_get_contacts (contacts : List Contact) (members : List String) :
    List Contact :=
  contacts.filter (fun c => members.contains c.id && c.is_subscribed)

/-- `Campaign.get_target_contacts`. -/
def get_target_contacts (contacts : List Contact) (userId : Nat)
    (target_lists exclude_lists : List (List String))
    (segment_ids : Option (List String)) : List Contact :=
  let base := contacts.filter (fun c => c.userId == userId && c.is_subscribed)
  let cs := if target_lists.isEmpty then base
    else
      let ids := target_lists.flatMap
        (fun l => (list_get_contacts contacts l).map (fun c => c.id))
      base.filter (fun c => ids.contains c.id)
  let cs := if exclude_lists.isEmpty then cs
    else
      let ex := exclude_lists.flatMap
        (fun l => (list_get_contacts contacts l).map (fun c => c.id))
      cs.filter (fun c => !ex.contains c.id)
  match segment_ids with
  | none => cs
  | some seg => cs.filter (fun c => seg.contains c.id)

/-- `Contact.unsubscribe` (the only path that clears the flag): sets both
the flag and the status column. -/
def Contact.unsubscribe (now : Int) (reason : Option String) (c : Contact) :
    Contact :=
  let c := { c with is_subscribed := false,
                    subscription_status := SubscriptionStatus.UNSUBSCRIBED,
                    unsubscribe_date := some now }
  if truthy reason then { c with unsubscribe_reason := reason } else c

/-- A contact whose status column says BOUNCED while the `is_subscribed`
flag is still true — nothing in the source keeps the two in sync for
bounce/complaint states. -/
def bouncedContact : Contact :=
  { id := "b-1", userId := 1, email := "b@x.cm",
    subscription_status := .BOUNCED, is_subscribed := true }

/-- Concrete identity for the C4 scenario: caps 10/10, five sends
recorded, last reset at time 0. -/
def c4cfg : EmailDomainConfig :=
  { daily_send_limit := 10, hourly_send_limit := 10,
    current_daily_sent := 5, current_hourly_sent := 5, last_rate_reset := 0 }

/-- The C5 race: two workers load the fresh row (cap 1) before either
commits. -/
def racedSys : ResSys :=
  runRes 0 (freshSys 1 10 0) [.load 0, .load 1, .commit 0, .commit 1]

/-- A concrete contact used by several concrete evaluations below. -/
def adaContact : Contact :=
  { id := "c-1", userId := 1, email := "ada@example.cm", first_name := some "Ada" }

/-! # Theorems

## Facts about the string primitives -/

theorem startsWithChars_length {pat s : List Char}
    (h : startsWithChars pat s = true) : pat.length ≤ s.length := by
  induction pat generalizing s with
  | nil => simp
  | cons a as ih =>
    cases s with
    | nil => simp [startsWithChars] at h
    | cons b bs =>
      simp only [startsWithChars, Bool.and_eq_true] at h
      simpa using Nat.succ_le_succ (ih h.2)

theorem startsWithChars_nil {pat : List Char} (h : pat ≠ []) :
    startsWithChars pat [] = false := by
  cases pat with
  | nil => exact absurd rfl h
  | cons a as => rfl

theorem length_replaceGo_ge {pat rep : List Char} (hpat : pat ≠ [])
    (hlen : pat.length ≤ rep.length) :
    ∀ (fuel : Nat) (s : List Char), s.length ≤ (replaceGo pat rep fuel s).length := by
  intro fuel
  induction fuel with
  | zero => intro s; simp [replaceGo]
  | succ fuel ih =>
    intro s
    cases s with
    | nil => simp [replaceGo]
    | cons c rest =>
      by_cases hpre : startsWithChars pat (c :: rest) = true
      · have hple : pat.length ≤ (c :: rest).length := startsWithChars_length hpre
        have hpos : 0 < pat.length := List.length_pos.mpr hpat
        have hdrop := ih ((c :: rest).drop pat.length)
        simp only [replaceGo, hpre, if_true, List.length_append, List.length_drop] at *
        omega
      · have := ih rest
        simp only [replaceGo, hpre, if_false, Bool.false_eq_true, List.length_cons] at *
        omega

theorem length_replaceGo_gt {pat rep : List Char} (hpat : pat ≠ [])
    (hlen : pat.length < rep.length) :
    ∀ (fuel : Nat) (s : List Char), s.length ≤ fuel →
      containsChars pat s = true → s.length < (replaceGo pat rep fuel s).length := by
  intro fuel
  induction fuel with
  | zero =>
    intro s hs hc
    have : s = [] := List.length_eq_zero.mp (Nat.le_zero.mp hs)
    subst this
    simp [containsChars, startsWithChars_nil hpat] at hc
  | succ fuel ih =>
    intro s hs hc
    cases s with
    | nil => simp [containsChars, startsWithChars_nil hpat] at hc
    | cons c rest =>
      by_cases hpre : startsWithChars pat (c :: rest) = true
      · have hple : pat.length ≤ (c :: rest).length := startsWithChars_length hpre
        have hpos : 0 < pat.length := List.length_pos.mpr hpat
        have hdrop := length_replaceGo_ge hpat (Nat.le_of_lt hlen) fuel
          ((c :: rest).drop pat.length)
        simp only [replaceGo, hpre, if_true, List.length_append, List.length_drop] at *
        omega
      · have hc' : containsChars pat rest = true := by
          simpa [containsChars, hpre] using hc
        have hr : rest.length ≤ fuel := by
          simp only [List.length_cons] at hs; omega
        have := ih rest hr hc'
        simp only [replaceGo, hpre, if_false, Bool.false_eq_true, List.length_cons] at *
        omega

theorem replaceGo_of_not_contains {pat rep : List Char} :
    ∀ (fuel : Nat) (s : List Char), containsChars pat s = false →
      replaceGo pat rep fuel s = s := by
  intro fuel
  induction fuel with
  | zero => intro s _; rfl
  | succ fuel ih =>
    intro s hc
    cases s with
    | nil => rfl
    | cons c rest =>
      have hsplit : startsWithChars pat (c :: rest) = false ∧
          containsChars pat rest = false := by
        constructor
        · cases hpre : startsWithChars pat (c :: rest) with
          | false => rfl
          | true => simp [containsChars, hpre] at hc
        · cases hrest : containsChars pat rest with
          | false => rfl
          | true => simp [containsChars, hrest] at hc
      simp [replaceGo, hsplit.1, ih rest hsplit.2]

theorem pyReplace_of_not_contains {s pat rep : String}
    (hpat : pat.data ≠ []) (h : pyContains s pat = false) :
    pyReplace s pat rep = s := by
  unfold pyReplace
  rw [if_neg (by simpa [List.isEmpty_iff] using hpat)]
  rw [replaceGo_of_not_contains s.data.length s.data h]

theorem length_pyReplace_gt {s pat rep : String} (hpat : pat.data ≠ [])
    (hlen : pat.length < rep.length) (h : pyContains s pat = true) :
    s.length < (pyReplace s pat rep).length := by
  unfold pyReplace
  rw [if_neg (by simpa [List.isEmpty_iff] using hpat)]
  exact length_replaceGo_gt hpat hlen s.data.length s.data le_rfl h

/-! ## C6: unsubscribe footer injection -/

theorem unsubscribeFooter_length_pos (siteUrl company profileAddress : String)
    (c : Contact) : 0 < (unsubscribeFooter siteUrl company profileAddress c).length := by
  unfold unsubscribeFooter
  simp only [String.length_append]
  have h : 0 < ("\n            </p>\n        </div>\n        " : String).length := by
    decide
  omega

theorem add_unsubscribe_link_length_gt (siteUrl company profileAddress : String)
    (c : Contact) (html : String) :
    html.length < (add_unsubscribe_link siteUrl company profileAddress (some c) html).length := by
  have hfooter := unsubscribeFooter_length_pos siteUrl company profileAddress c
  unfold add_unsubscribe_link
  by_cases hb : pyContains html "</body>" = true
  · simp only [hb, if_true]
    apply length_pyReplace_gt (by decide) _ hb
    have h7 : ("</body>" : String).length = 7 := by decide
    rw [String.length_append]
    omega
  · simp only [hb, if_false, Bool.false_eq_true]
    rw [String.length_append]
    omega

/-- C6, counterexample: injecting the unsubscribe footer twice into
`<p>Hello</p>` does not equal injecting it once — the footer is appended
again, so the operation is not idempotent as claimed. -/
theorem C6_counterexample :
    add_unsubscribe_link "https://afrimailpro.com" "Acme" "" (some adaContact)
        (add_unsubscribe_link "https://afrimailpro.com" "Acme" "" (some adaContact)
          "<p>Hello</p>") ≠
      add_unsubscribe_link "https://afrimailpro.com" "Acme" "" (some adaContact)
        "<p>Hello</p>" := by decide

/-- C6, amended: `add_unsubscribe_link` is the identity when no contact is
given, but with a contact it unconditionally inserts the footer (before
`</body>` when present, else appended), so a second call always duplicates
the footer: applying it twice never equals applying it once. -/
theorem C6_amended_footer_duplication :
    (∀ (siteUrl company profileAddress html : String),
        add_unsubscribe_link siteUrl company profileAddress none html = html) ∧
    ∀ (siteUrl company profileAddress : String) (c : Contact) (html : String),
      add_unsubscribe_link siteUrl company profileAddress (some c)
          (add_unsubscribe_link siteUrl company profileAddress (some c) html) ≠
        add_unsubscribe_link siteUrl company profileAddress (some c) html := by
  refine ⟨fun _ _ _ _ => rfl, ?_⟩
  intro siteUrl company profileAddress c html heq
  have h1 := add_unsubscribe_link_length_gt siteUrl company profileAddress c
    (add_unsubscribe_link siteUrl company profileAddress (some c) html)
  rw [heq] at h1
  exact Nat.lt_irrefl _ h1

/-- C6, witness: without a contact the injection is the identity, by the
amended theorem. -/
theorem C6_witness :
    add_unsubscribe_link "https://x.cm" "Co" "" none "<p>a</p>" = "<p>a</p>" :=
  C6_amended_footer_duplication.1 "https://x.cm" "Co" "" "<p>a</p>"

/-! ## C7: personalization placeholders -/

theorem placeholder_data_ne_nil (k : String) :
    ("\x7b\x7b" ++ k ++ "\x7d\x7d").data ≠ [] := by
  have h : ("\x7b\x7b" ++ k ++ "\x7d\x7d").data =
      '\x7b' :: '\x7b' :: (k.data ++ ['\x7d', '\x7d']) := by
    show (("\x7b\x7b" ++ k) ++ "\x7d\x7d").data = _
    simp [String.data_append]
  simp [h]

/-- C7, counterexample: a placeholder whose field is not among the
recipient's attributes is left verbatim in the output, not replaced by the
empty string (the claimed output `"Hi "` differs from the actual output). -/
theorem C7_counterexample :
    personalize_content "Hi \x7b\x7bpromo_code\x7d\x7d" (some adaContact) =
        "Hi \x7b\x7bpromo_code\x7d\x7d" ∧
      ("Hi \x7b\x7bpromo_code\x7d\x7d" : String) ≠ "Hi " := by decide

/-- A fold of replacements whose patterns never occur in the content
leaves it unchanged. -/
theorem foldl_pyReplace_of_not_contains (content : String)
    (l : List (String × String))
    (h : ∀ kv ∈ l, pyContains content ("\x7b\x7b" ++ kv.1 ++ "\x7d\x7d") = false) :
    l.foldl (fun acc kv =>
      pyReplace acc ("\x7b\x7b" ++ kv.1 ++ "\x7d\x7d") kv.2) content = content := by
  induction l with
  | nil => rfl
  | cons kv rest ih =>
    have hstep : pyReplace content ("\x7b\x7b" ++ kv.1 ++ "\x7d\x7d") kv.2 =
        content :=
      pyReplace_of_not_contains (placeholder_data_ne_nil kv.1)
        (h kv (List.mem_cons_self kv rest))
    simpa [hstep] using ih (fun kv' hkv' => h kv' (List.mem_cons_of_mem kv hkv'))

theorem startsWithChars_self (l : List Char) : startsWithChars l l = true := by
  induction l with
  | nil => rfl
  | cons c rest ih => simp [startsWithChars, ih]

theorem replaceGo_nil_input (pat rep : List Char) (fuel : Nat) :
    replaceGo pat rep fuel [] = [] := by
  cases fuel <;> rfl

/-- Replacing a pattern inside the pattern itself yields the replacement:
Python `pat.replace(pat, rep) == rep`. -/
theorem pyReplace_whole (pat rep : String) (hpat : pat.data ≠ []) :
    pyReplace pat pat rep = rep := by
  unfold pyReplace
  rw [if_neg (by simpa [List.isEmpty_iff] using hpat)]
  have hgo : replaceGo pat.data rep.data pat.data.length pat.data = rep.data := by
    cases hp : pat.data with
    | nil => exact absurd hp hpat
    | cons c rest =>
      show replaceGo (c :: rest) rep.data (c :: rest).length (c :: rest) = rep.data
      have h1 : startsWithChars (c :: rest) (c :: rest) = true :=
        startsWithChars_self _
      simp [replaceGo, h1, List.drop_length, replaceGo_nil_input]
  rw [hgo]

/-- C7, amended: personalization substitutes the placeholders of the
recipient's personalization data, in dictionary order — a known
placeholder `\x7b\x7bfield\x7d\x7d` whose neighbouring entries do not
interfere (no earlier entry's placeholder occurs inside it, no later
entry's placeholder occurs inside the substituted value) is replaced by
the recipient's value for that field. Content containing none of the
data's placeholders is returned completely unchanged — unknown
placeholders are left verbatim, not blanked — and without a contact the
content is returned as-is. The operation is a total function, so it never
raises. -/
theorem C7_amended_personalization :
    (∀ (content : String), personalize_content content none = content) ∧
    (∀ (c : Contact) (content : String),
      (∀ kv ∈ c.get_personalization_data,
          pyContains content ("\x7b\x7b" ++ kv.1 ++ "\x7d\x7d") = false) →
      personalize_content content (some c) = content) ∧
    (∀ (c : Contact) (pre : List (String × String)) (k v : String)
        (post : List (String × String)),
      c.get_personalization_data = pre ++ (k, v) :: post →
      (∀ kv ∈ pre, pyContains ("\x7b\x7b" ++ k ++ "\x7d\x7d")
          ("\x7b\x7b" ++ kv.1 ++ "\x7d\x7d") = false) →
      (∀ kv ∈ post, pyContains v ("\x7b\x7b" ++ kv.1 ++ "\x7d\x7d") = false) →
      personalize_content ("\x7b\x7b" ++ k ++ "\x7d\x7d") (some c) = v) := by
  refine ⟨fun _ => rfl, ?_, ?_⟩
  · intro c content h
    unfold personalize_content
    by_cases hempty : content.data.isEmpty = true
    · simp [hempty]
    · simp only [hempty, if_false, Bool.false_eq_true]
      exact foldl_pyReplace_of_not_contains content c.get_personalization_data h
  · intro c pre k v post hdata hpre hpost
    have hne : ("\x7b\x7b" ++ k ++ "\x7d\x7d").data.isEmpty = false := by
      simp [List.isEmpty_iff, placeholder_data_ne_nil k]
    unfold personalize_content
    simp only [hne, if_false, Bool.false_eq_true]
    rw [hdata, List.foldl_append]
    rw [foldl_pyReplace_of_not_contains _ pre hpre]
    simp only [List.foldl_cons]
    rw [pyReplace_whole _ _ (placeholder_data_ne_nil k)]
    exact foldl_pyReplace_of_not_contains v post hpost

/-- C7, witness: the known placeholder `\x7b\x7bfirst_name\x7d\x7d` is
substituted with the recipient's first name, and plain text without any
placeholder is returned unchanged. -/
theorem C7_witness :
    personalize_content "\x7b\x7bfirst_name\x7d\x7d" (some adaContact) = "Ada" ∧
      personalize_content "plain text" (some adaContact) = "plain text" := by
  constructor
  · exact C7_amended_personalization.2.2 adaContact [] "first_name" "Ada"
      [("last_name", ""), ("full_name", "Ada"), ("email", "ada@example.cm"),
       ("company", ""), ("job_title", ""), ("phone", ""), ("city", ""),
       ("country", ""), ("industry", "")]
      (by decide) (by decide) (by decide)
  · exact C7_amended_personalization.2.1 adaContact "plain text" (by decide)

/-! ## C9: click-tracking link rewriting -/

theorem char_toNat_lt (c : Char) : c.toNat < 1114112 := by
  rcases c.valid with h | ⟨_, h2⟩
  · exact Nat.lt_trans h (by norm_num)
  · exact h2

theorem utf8Bytes_lt (c : Char) : ∀ x ∈ utf8Bytes c, x < 256 := by
  have hc : c.toNat < 1114112 := char_toNat_lt c
  intro x hx
  unfold utf8Bytes at hx
  split_ifs at hx <;>
    simp only [List.mem_cons, List.not_mem_nil, or_false] at hx <;>
    omega

theorem strBytes_lt (s : String) : ∀ x ∈ strBytes s, x < 256 := by
  intro x hx
  simp only [strBytes, List.mem_flatMap] at hx
  obtain ⟨c, _, hc⟩ := hx
  exact utf8Bytes_lt c x hc

theorem b64Index_b64Char : ∀ n, n < 64 → b64Index (b64Char n) = n := by decide

theorem b64Char_ne_pad : ∀ n, n < 64 → b64Char n ≠ '=' := by decide

theorem b64_roundtrip : ∀ (bs : List Nat), (∀ x ∈ bs, x < 256) →
    b64DecodeChars (b64EncodeBytes bs) = bs
  | [], _ => rfl
  | [a], h => by
    have ha : a < 256 := h a (by simp)
    show b64DecodeChars [b64Char (a / 4), b64Char (a % 4 * 16), '=', '='] = [a]
    simp only [b64DecodeChars]
    rw [b64Index_b64Char (a / 4) (by omega), b64Index_b64Char (a % 4 * 16) (by omega)]
    simp
    omega
  | [a, b], h => by
    have ha : a < 256 := h a (by simp)
    have hb : b < 256 := h b (by simp)
    show b64DecodeChars [b64Char (a / 4), b64Char (a % 4 * 16 + b / 16),
        b64Char (b % 16 * 4), '='] = [a, b]
    simp only [b64DecodeChars]
    rw [b64Index_b64Char (a / 4) (by omega),
        b64Index_b64Char (a % 4 * 16 + b / 16) (by omega),
        b64Index_b64Char (b % 16 * 4) (by omega)]
    simp [b64Char_ne_pad (b % 16 * 4) (by omega)]
    constructor <;> omega
  | a :: b :: c :: rest, h => by
    have ha : a < 256 := h a (by simp)
    have hb : b < 256 := h b (by simp)
    have hc : c < 256 := h c (by simp)
    have hrest := b64_roundtrip rest (fun x hx => h x (by simp [hx]))
    show b64DecodeChars (b64Char (a / 4) :: b64Char (a % 4 * 16 + b / 16) ::
        b64Char (b % 16 * 4 + c / 64) :: b64Char (c % 64) ::
        b64EncodeBytes rest) = a :: b :: c :: rest
    simp only [b64DecodeChars]
    rw [b64Index_b64Char (a / 4) (by omega),
        b64Index_b64Char (a % 4 * 16 + b / 16) (by omega),
        b64Index_b64Char (b % 16 * 4 + c / 64) (by omega),
        b64Index_b64Char (c % 64) (by omega), hrest]
    simp [b64Char_ne_pad (b % 16 * 4 + c / 64) (by omega),
      b64Char_ne_pad (c % 64) (by omega)]
    refine ⟨by omega, by omega, by omega⟩

/-- C9: the per-hyperlink rewriting decision of `add_click_tracking` keeps
`mailto:`, `tel:`, fragment (`#`) anchors, URLs on the tracking domain
(starting with the service's base URL) and URLs containing "unsubscribe"
(case-insensitively) unchanged, and rewrites every other hyperlink into the
tracking-redirect URL embedding the destination URL-safe-base64 encoded;
the embedded encoding is reversible (base64 decoding recovers exactly the
destination's UTF-8 bytes). -/
theorem C9_link_rewriting :
    (∀ base_url id url : String, startsWithChars "mailto:".data url.data = true →
        replace_link base_url id url = url) ∧
    (∀ base_url id url : String, startsWithChars "tel:".data url.data = true →
        replace_link base_url id url = url) ∧
    (∀ base_url id url : String, startsWithChars "#".data url.data = true →
        replace_link base_url id url = url) ∧
    (∀ base_url id url : String, startsWithChars base_url.data url.data = true →
        replace_link base_url id url = url) ∧
    (∀ base_url id url : String, pyContains (pyLower url) "unsubscribe" = true →
        replace_link base_url id url = url) ∧
    (∀ base_url id url : String,
        startsWithChars base_url.data url.data = false →
        startsWithChars "mailto:".data url.data = false →
        startsWithChars "tel:".data url.data = false →
        startsWithChars "#".data url.data = false →
        pyContains (pyLower url) "unsubscribe" = false →
        replace_link base_url id url =
          base_url ++ "/t/click/" ++ id ++ "/?url=" ++ urlsafe_b64encode url) ∧
    (∀ url : String,
        b64DecodeChars (urlsafe_b64encode url).data = strBytes url) := by
  refine ⟨?_, ?_, ?_, ?_, ?_, ?_, ?_⟩
  · intro base_url id url h; simp [replace_link, h]
  · intro base_url id url h; simp [replace_link, h]
  · intro base_url id url h; simp [replace_link, h]
  · intro base_url id url h; simp [replace_link, h]
  · intro base_url id url h; simp [replace_link, h]
  · intro base_url id url h1 h2 h3 h4 h5
    simp [replace_link, create_click_tracking_url, h1, h2, h3, h4, h5]
  · intro url
    exact b64_roundtrip (strBytes url) (strBytes_lt url)

/-- C9, witness: `https://shop.example.com/item` is rewritten into the
tracking URL embedding its base64 encoding, and `mailto:support@x.com` is
left unchanged. -/
theorem C9_witness :
    replace_link "https://afrimailpro.com" "log7" "https://shop.example.com/item" =
        "https://afrimailpro.com/t/click/log7/?url=aHR0cHM6Ly9zaG9wLmV4YW1wbGUuY29tL2l0ZW0=" ∧
      replace_link "https://afrimailpro.com" "log7" "mailto:support@x.com" =
        "mailto:support@x.com" := by
  constructor
  · have h := C9_link_rewriting.2.2.2.2.2.1 "https://afrimailpro.com" "log7"
      "https://shop.example.com/item" (by decide) (by decide) (by decide)
      (by decide) (by decide)
    rw [h]
    decide
  · exact C9_link_rewriting.1 "https://afrimailpro.com" "log7"
      "mailto:support@x.com" (by decide)

/-! ## C10: SendRecord status transitions -/

/-- C10, counterexample: an open event arriving for a record in the
terminal COMPLAINED state overwrites that state with OPENED — the status
moves backward in the §4.6 delivery-state order. -/
theorem C10_counterexample :
    (mark_opened 5 none none none ({ status := .COMPLAINED } : EmailLog)).status =
        .OPENED ∧
      statusRank .OPENED < statusRank .COMPLAINED := by decide

/-- C10, amended: the delivery-event operations are not monotone.
`mark_opened` preserves the status only when it is already OPENED or
CLICKED (a repeat open just increments the raw counter and keeps
`opened_at`); from every other status — including the terminal
Bounced/Complained/Unsubscribed states — it overwrites the status with
OPENED. `mark_clicked`, `mark_bounced`, `mark_complained` and
`mark_unsubscribed` set their target status unconditionally. -/
theorem C10_amended_mark_operations (log : EmailLog) (now : Int)
    (ip ua : Option String) (dev : Option DeviceInfo) (link : Option String)
    (bt : String) (reason : Option String) :
    ((log.status = .OPENED ∨ log.status = .CLICKED) →
        (mark_opened now ip ua dev log).status = log.status ∧
        (mark_opened now ip ua dev log).opened_at = log.opened_at ∧
        (mark_opened now ip ua dev log).open_count = log.open_count + 1) ∧
    (log.status ≠ .OPENED → log.status ≠ .CLICKED →
        (mark_opened now ip ua dev log).status = .OPENED ∧
        (mark_opened now ip ua dev log).opened_at = some now) ∧
    (mark_clicked now link ip ua log).status = .CLICKED ∧
    ((mark_bounced bt reason now log).status = .HARD_BOUNCED ∨
      (mark_bounced bt reason now log).status = .SOFT_BOUNCED ∨
      (mark_bounced bt reason now log).status = .BOUNCED) ∧
    (mark_complained reason now log).status = .COMPLAINED ∧
    (mark_unsubscribed reason now log).status = .UNSUBSCRIBED := by
  refine ⟨?_, ?_, ?_, ?_, ?_, ?_⟩
  · intro h
    cases dev <;> cases ip <;> cases ua <;>
      simp [mark_opened, h]
  · intro h1 h2
    cases dev <;> cases ip <;> cases ua <;>
      simp [mark_opened, h1, h2]
  · cases link <;> cases ip <;> cases ua <;>
      simp [mark_clicked] <;> split <;> rfl
  · simp only [mark_bounced]
    split_ifs <;> simp
  · cases reason <;> simp [mark_complained]
  · cases reason <;> simp [mark_unsubscribed]

/-- C10, witness: a repeat open on an already-OPENED record keeps the
status and increments the raw counter. -/
theorem C10_witness :
    (mark_opened 9 none none none
        ({ status := .OPENED, open_count := 1 } : EmailLog)).status = .OPENED ∧
      (mark_opened 9 none none none
        ({ status := .OPENED, open_count := 1 } : EmailLog)).open_count = 2 := by
  have h := (C10_amended_mark_operations
    ({ status := .OPENED, open_count := 1 } : EmailLog) 9 none none none none
    "HARD" none).1 (Or.inl rfl)
  exact ⟨h.1, h.2.2⟩

/-! ## C8: metric recomputation -/

theorem calculate_metrics_rates (c : Campaign) (h : 0 < c.sent_count) :
    (calculate_metrics c).delivery_rate =
        (c.delivered_count : ℚ) / (c.sent_count : ℚ) * 100 ∧
    (calculate_metrics c).open_rate = (if c.delivered_count > 0 then
        (c.unique_opens_count : ℚ) / (c.delivered_count : ℚ) * 100 else 0) ∧
    (calculate_metrics c).click_rate = (if c.delivered_count > 0 then
        (c.unique_clicks_count : ℚ) / (c.delivered_count : ℚ) * 100 else 0) ∧
    (calculate_metrics c).click_to_open_rate = (if c.unique_opens_count > 0 then
        (c.unique_clicks_count : ℚ) / (c.unique_opens_count : ℚ) * 100 else 0) ∧
    (calculate_metrics c).unsubscribe_rate = (if c.delivered_count > 0 then
        (c.unsubscribed_count : ℚ) / (c.delivered_count : ℚ) * 100 else 0) ∧
    (calculate_metrics c).bounce_rate =
        (c.bounced_count : ℚ) / (c.sent_count : ℚ) * 100 := by
  simp only [calculate_metrics, gt_iff_lt, if_pos h]
  split <;> exact ⟨rfl, rfl, rfl, rfl, rfl, rfl⟩

theorem rate_bounds (a b : Nat) (hab : a ≤ b) (hb : 0 < b) :
    0 ≤ (a : ℚ) / (b : ℚ) * 100 ∧ (a : ℚ) / (b : ℚ) * 100 ≤ 100 := by
  have hb' : (0 : ℚ) < (b : ℚ) := by exact_mod_cast hb
  constructor
  · positivity
  · have h1 : (a : ℚ) / (b : ℚ) ≤ 1 := by
      rw [div_le_one hb']
      exact_mod_cast hab
    linarith

/-- C8, counterexample: with `sent_count = 0` the recomputation assigns
nothing, so a stale nonzero `open_rate` survives even though
`delivered_count = 0` — "delivered_count = 0 implies open_rate = 0 after
recompute" is false, and a zero denominator does not yield 0. -/
theorem C8_counterexample :
    (calculate_metrics ({ open_rate := 50 } : Campaign)).open_rate = 50 ∧
      ({ open_rate := 50 } : Campaign).delivered_count = 0 ∧
      (50 : ℚ) ≠ 0 := by
  refine ⟨rfl, rfl, by norm_num⟩

/-- C8, amended: recomputation is a total function (never an error or
NaN). When `sent_count = 0` it leaves every field unchanged (stale rates
persist); when `sent_count > 0` every zero denominator inside yields a
zero rate (`delivered_count = 0` forces open, click and unsubscribe rates
to 0, `unique_opens_count = 0` forces the click-to-open rate to 0), and
whenever the counters are mutually consistent all six rates lie in
[0, 100]. -/
theorem C8_amended_metrics (c : Campaign) :
    (c.sent_count = 0 → calculate_metrics c = c) ∧
    (0 < c.sent_count →
      (c.delivered_count = 0 →
        (calculate_metrics c).open_rate = 0 ∧
        (calculate_metrics c).click_rate = 0 ∧
        (calculate_metrics c).unsubscribe_rate = 0) ∧
      (c.unique_opens_count = 0 → (calculate_metrics c).click_to_open_rate = 0) ∧
      (c.delivered_count ≤ c.sent_count →
       c.unique_opens_count ≤ c.delivered_count →
       c.unique_clicks_count ≤ c.delivered_count →
       c.unique_clicks_count ≤ c.unique_opens_count →
       c.unsubscribed_count ≤ c.delivered_count →
       c.bounced_count ≤ c.sent_count →
        (0 ≤ (calculate_metrics c).delivery_rate ∧
          (calculate_metrics c).delivery_rate ≤ 100) ∧
        (0 ≤ (calculate_metrics c).open_rate ∧
          (calculate_metrics c).open_rate ≤ 100) ∧
        (0 ≤ (calculate_metrics c).click_rate ∧
          (calculate_metrics c).click_rate ≤ 100) ∧
        (0 ≤ (calculate_metrics c).click_to_open_rate ∧
          (calculate_metrics c).click_to_open_rate ≤ 100) ∧
        (0 ≤ (calculate_metrics c).unsubscribe_rate ∧
          (calculate_metrics c).unsubscribe_rate ≤ 100) ∧
        (0 ≤ (calculate_metrics c).bounce_rate ∧
          (calculate_metrics c).bounce_rate ≤ 100))) := by
  constructor
  · intro h
    unfold calculate_metrics
    rw [if_neg (by omega)]
  · intro hpos
    obtain ⟨hdel, hopen, hclick, hcto, hunsub, hbounce⟩ :=
      calculate_metrics_rates c hpos
    refine ⟨?_, ?_, ?_⟩
    · intro h0
      rw [hopen, hclick, hunsub]
      simp [h0]
    · intro h0
      rw [hcto]
      simp [h0]
    · intro h1 h2 h3 h4 h5 h6
      rw [hdel, hopen, hclick, hcto, hunsub, hbounce]
      refine ⟨rate_bounds _ _ h1 hpos, ?_, ?_, ?_, ?_, rate_bounds _ _ h6 hpos⟩
      · by_cases hd : 0 < c.delivered_count
        · rw [if_pos hd]; exact rate_bounds _ _ h2 hd
        · rw [if_neg hd]; norm_num
      · by_cases hd : 0 < c.delivered_count
        · rw [if_pos hd]; exact rate_bounds _ _ h3 hd
        · rw [if_neg hd]; norm_num
      · by_cases hu : 0 < c.unique_opens_count
        · rw [if_pos hu]; exact rate_bounds _ _ h4 hu
        · rw [if_neg hu]; norm_num
      · by_cases hd : 0 < c.delivered_count
        · rw [if_pos hd]; exact rate_bounds _ _ h5 hd
        · rw [if_neg hd]; norm_num

/-- C8, witness: a campaign with `sent_count = 0` keeps its stale rate; one
with `sent_count = 2, delivered_count = 0` gets open rate 0. -/
theorem C8_witness :
    calculate_metrics ({ open_rate := 7 } : Campaign) =
        ({ open_rate := 7 } : Campaign) ∧
      (calculate_metrics
        ({ sent_count := 2, delivered_count := 0, open_rate := 3 } :
          Campaign)).open_rate = 0 := by
  constructor
  · exact (C8_amended_metrics ({ open_rate := 7 } : Campaign)).1 rfl
  · exact (((C8_amended_metrics
      ({ sent_count := 2, delivered_count := 0, open_rate := 3 } : Campaign)).2
      (by norm_num)).1 rfl).1

/-! ## C1: unique vs raw open counters -/

/-- C1: three open events for the single SendRecord of a campaign leave
`open_count = 3` on the record (as claimed) but increment the campaign's
`unique_opens_count` on every event — it ends at 3, not 1, because the
`previous_opens == 1` test runs after `mark_opened` has already put the
record in OPENED state, so it is true for repeat opens as well. -/
theorem C1_unique_open_overcount :
    c1Final.logs.map (fun r => r.log.open_count) = [3] ∧
      c1Final.camp.opened_count = 3 ∧
      c1Final.camp.unique_opens_count = 3 ∧
      c1Final.camp.unique_opens_count ≠ 1 := by decide

/-! ## C4 and C5: the per-identity rate limiter -/

/-- Inside the current hourly window neither reset fires, so
`can_send_email` is just the two cap checks. -/
theorem can_send_email_in_window (mem db : EmailDomainConfig) (now : Int)
    (h0 : 0 ≤ now - mem.last_rate_reset) (h1 : now - mem.last_rate_reset < 3600) :
    can_send_email now mem db =
      if mem.current_daily_sent ≥ mem.daily_send_limit then
        (mem, db, false, "Daily send limit reached")
      else if mem.current_hourly_sent ≥ mem.hourly_send_limit then
        (mem, db, false, "Hourly send limit reached")
      else (mem, db, true, "Can send") := by
  simp only [can_send_email]
  rw [if_neg (show ¬(now - mem.last_rate_reset ≥ 86400) by omega)]
  rw [if_neg (show ¬(now - (mem, db).1.last_rate_reset ≥ 3600) by
    simp only [Prod.fst]; omega)]

/-- C4, counterexample: a check one hour after the last reset zeroes the
in-memory hourly counter and allows the send, but the persisted row still
carries the old count (the reset is not saved) and no reset timestamp is
advanced, so every later check in the same daily window zeroes it again. -/
theorem C4_counterexample :
    (can_send_email 3600 c4cfg c4cfg).1.current_hourly_sent = 0 ∧
      (can_send_email 3600 c4cfg c4cfg).2.1.current_hourly_sent = 5 ∧
      (can_send_email 3600 c4cfg c4cfg).1.last_rate_reset = 0 ∧
      (can_send_email 3600 c4cfg c4cfg).2.2.1 = true := by decide

/-- C4, amended: the daily and hourly windows share the single
`last_rate_reset` timestamp. A check at least 1h (but less than 24h) after
it zeroes the hourly counter in memory only — the persisted row is
untouched and the timestamp is not advanced, so the zeroing recurs at
every later check of the window while the daily counter accumulates. A
check at least 24h after the timestamp zeroes and persists the daily
counter and sets the timestamp to now, but carries the hourly counter
over unreset. -/
theorem C4_amended_rate_windows (cfg db : EmailDomainConfig) (now : Int) :
    (3600 ≤ now - cfg.last_rate_reset → now - cfg.last_rate_reset < 86400 →
      (can_send_email now cfg db).1.current_hourly_sent = 0 ∧
      (can_send_email now cfg db).2.1 = db ∧
      (can_send_email now cfg db).1.last_rate_reset = cfg.last_rate_reset ∧
      (can_send_email now cfg db).1.current_daily_sent = cfg.current_daily_sent) ∧
    (86400 ≤ now - cfg.last_rate_reset →
      (can_send_email now cfg db).1.current_daily_sent = 0 ∧
      (can_send_email now cfg db).2.1.current_daily_sent = 0 ∧
      (can_send_email now cfg db).1.last_rate_reset = now ∧
      (can_send_email now cfg db).1.current_hourly_sent = cfg.current_hourly_sent ∧
      (can_send_email now cfg db).2.1.current_hourly_sent = cfg.current_hourly_sent) := by
  constructor
  · intro h1 h2
    simp only [can_send_email]
    rw [if_neg (show ¬(now - cfg.last_rate_reset ≥ 86400) by omega)]
    dsimp only
    rw [if_pos (show now - cfg.last_rate_reset ≥ 3600 by omega)]
    refine ⟨?_, ?_, ?_, ?_⟩ <;> (split_ifs <;> rfl)
  · intro h
    simp only [can_send_email]
    rw [if_pos (show now - cfg.last_rate_reset ≥ 86400 by omega)]
    dsimp only
    rw [if_neg (show ¬(now - now ≥ 3600) by omega)]
    refine ⟨?_, ?_, ?_, ?_, ?_⟩ <;> (split_ifs <;> rfl)

/-- C4, witness: the concrete identity of the counterexample scenario,
checked through the amended theorem. -/
theorem C4_witness :
    (can_send_email 3600 c4cfg c4cfg).1.current_hourly_sent = 0 ∧
      (can_send_email 3600 c4cfg c4cfg).2.1 = c4cfg := by
  have h := (C4_amended_rate_windows c4cfg c4cfg 3600).1 (by decide) (by decide)
  exact ⟨h.1, h.2.1⟩

theorem filter_range_lt_length (n cap : Nat) :
    ((List.range n).filter (fun i => decide (i < cap))).length = min n cap := by
  induction n with
  | zero => simp
  | succ n ih =>
    rw [List.range_succ, List.filter_append]
    by_cases h : n < cap
    · simp [h, ih]; omega
    · simp [h, ih]; omega

/-- Successful commit: the snapshot passes both caps, so the incremented
snapshot is saved over the row and the worker records success. -/
theorem commit_success (now : Int) (sys : ResSys) (i : Nat)
    (snap : EmailDomainConfig) (hsnap : sys.snaps i = some snap)
    (h0 : 0 ≤ now - snap.last_rate_reset)
    (h1 : now - snap.last_rate_reset < 3600)
    (hd : snap.current_daily_sent < snap.daily_send_limit)
    (hh : snap.current_hourly_sent < snap.hourly_send_limit) :
    resStep now sys (.commit i) =
      { db := (increment_send_count now snap).2,
        snaps := fun j => if j == i then some (increment_send_count now snap).1
          else sys.snaps j,
        results := fun j => if j == i then some true else sys.results j } := by
  simp only [resStep, hsnap]
  rw [can_send_email_in_window snap sys.db now h0 h1]
  rw [if_neg (show ¬(snap.current_daily_sent ≥ snap.daily_send_limit) by omega),
      if_neg (show ¬(snap.current_hourly_sent ≥ snap.hourly_send_limit) by omega)]
  rfl

/-- Failed commit on the daily cap: nothing is saved, the worker records
failure. -/
theorem commit_fail_daily (now : Int) (sys : ResSys) (i : Nat)
    (snap : EmailDomainConfig) (hsnap : sys.snaps i = some snap)
    (h0 : 0 ≤ now - snap.last_rate_reset)
    (h1 : now - snap.last_rate_reset < 3600)
    (hd : snap.daily_send_limit ≤ snap.current_daily_sent) :
    resStep now sys (.commit i) =
      { db := sys.db, snaps := sys.snaps,
        results := fun j => if j == i then some false else sys.results j } := by
  simp only [resStep, hsnap]
  rw [can_send_email_in_window snap sys.db now h0 h1]
  rw [if_pos (show snap.current_daily_sent ≥ snap.daily_send_limit by omega)]
  rfl

/-- State after `n` serial reservation attempts: the persisted counters
sit at `min n cap` and worker `j` succeeded exactly when `j < cap`. -/
theorem serial_invariant (cap hcap : Nat) (last now : Int)
    (hch : cap ≤ hcap) (h0 : 0 ≤ now - last) (h1 : now - last < 3600) :
    ∀ n : Nat,
      (runRes now (freshSys cap hcap last) (serialSchedule n)).db.daily_send_limit = cap ∧
      (runRes now (freshSys cap hcap last) (serialSchedule n)).db.hourly_send_limit = hcap ∧
      (runRes now (freshSys cap hcap last) (serialSchedule n)).db.last_rate_reset = last ∧
      (runRes now (freshSys cap hcap last) (serialSchedule n)).db.current_daily_sent = min n cap ∧
      (runRes now (freshSys cap hcap last) (serialSchedule n)).db.current_hourly_sent = min n cap ∧
      ∀ j, (runRes now (freshSys cap hcap last) (serialSchedule n)).results j =
        if j < n then some (decide (j < cap)) else none := by
  intro n
  induction n with
  | zero =>
    refine ⟨rfl, rfl, rfl, ?_, ?_, ?_⟩
    · show (freshIdentity cap hcap last).current_daily_sent = min 0 cap
      simp [freshIdentity]
    · show (freshIdentity cap hcap last).current_hourly_sent = min 0 cap
      simp [freshIdentity]
    · intro j
      simp [runRes, serialSchedule, freshSys]
  | succ n ih =>
    obtain ⟨e1, e2, e3, e4, e5, e6⟩ := ih
    have hsched : serialSchedule (n + 1) =
        serialSchedule n ++ [ResEv.load n, ResEv.commit n] := by
      simp [serialSchedule, List.range_succ]
    have hrun : runRes now (freshSys cap hcap last) (serialSchedule (n + 1)) =
        resStep now (resStep now
          (runRes now (freshSys cap hcap last) (serialSchedule n)) (.load n))
          (.commit n) := by
      rw [hsched]
      simp [runRes, List.foldl_append]
    set S := runRes now (freshSys cap hcap last) (serialSchedule n) with hS
    have hsnap : (resStep now S (.load n)).snaps n = some S.db := by
      simp [resStep]
    have hresload : (resStep now S (.load n)).results = S.results := rfl
    have hh0 : 0 ≤ now - S.db.last_rate_reset := by rw [e3]; exact h0
    have hh1 : now - S.db.last_rate_reset < 3600 := by rw [e3]; exact h1
    by_cases hn : n < cap
    · have hcommit := commit_success now (resStep now S (.load n)) n S.db hsnap
        hh0 hh1 (by rw [e4, e1]; omega) (by rw [e5, e2]; omega)
      rw [hrun, hcommit]
      refine ⟨e1, e2, e3, ?_, ?_, ?_⟩
      · show S.db.current_daily_sent + 1 = min (n + 1) cap
        rw [e4]; omega
      · show S.db.current_hourly_sent + 1 = min (n + 1) cap
        rw [e5]; omega
      · intro j
        show (if j == n then some true else (resStep now S (.load n)).results j) = _
        rw [hresload]
        by_cases hj : j = n
        · subst hj
          simp [hn]
        · have hj' : (j == n) = false := by simp [hj]
          rw [hj', if_neg (by simp), e6 j]
          by_cases hjn : j < n
          · rw [if_pos hjn, if_pos (by omega)]
          · rw [if_neg hjn, if_neg (by omega)]
    · have hcommit := commit_fail_daily now (resStep now S (.load n)) n S.db hsnap
        hh0 hh1 (by rw [e4, e1]; omega)
      rw [hrun, hcommit]
      refine ⟨e1, e2, e3, ?_, ?_, ?_⟩
      · show S.db.current_daily_sent = min (n + 1) cap
        rw [e4]; omega
      · show S.db.current_hourly_sent = min (n + 1) cap
        rw [e5]; omega
      · intro j
        show (if j == n then some false else (resStep now S (.load n)).results j) = _
        rw [hresload]
        by_cases hj : j = n
        · subst hj
          simp [hn]
        · have hj' : (j == n) = false := by simp [hj]
          rw [hj', if_neg (by simp), e6 j]
          by_cases hjn : j < n
          · rw [if_pos hjn, if_pos (by omega)]
          · rw [if_neg hjn, if_neg (by omega)]

/-- C5, counterexample: two reservation attempts interleaved against a
fresh identity with daily cap 1 both succeed (load-load-commit-commit),
and the persisted counter ends at 1 — not "exactly C successes under
every interleaving", and two true results correspond to one increment. -/
theorem C5_counterexample :
    successCount 2 racedSys = 2 ∧
      racedSys.db.current_daily_sent = 1 ∧
      racedSys.db.daily_send_limit = 1 ∧
      successCount 2 racedSys ≠ racedSys.db.daily_send_limit := by decide

/-- C5, amended: the reservation sequence `can_send_email` +
`increment_send_count` is check-then-act without any serialization, so
concurrent interleavings can exceed the cap; under serial (non-overlapping)
execution of `n` attempts against a fresh identity with daily cap `cap`
(and hourly cap at least `cap`) inside one window, exactly `min n cap`
attempts succeed and the persisted daily counter equals `min n cap`. -/
theorem C5_amended_serial_reservations (n cap hcap : Nat) (last now : Int)
    (hch : cap ≤ hcap) (h0 : 0 ≤ now - last) (h1 : now - last < 3600) :
    successCount n (runRes now (freshSys cap hcap last) (serialSchedule n)) =
        min n cap ∧
      (runRes now (freshSys cap hcap last)
        (serialSchedule n)).db.current_daily_sent = min n cap := by
  obtain ⟨e1, e2, e3, e4, e5, e6⟩ := serial_invariant cap hcap last now hch h0 h1 n
  refine ⟨?_, e4⟩
  unfold successCount
  have hcong : ∀ i ∈ List.range n,
      ((runRes now (freshSys cap hcap last) (serialSchedule n)).results i ==
        some true) = decide (i < cap) := by
    intro i hi
    rw [e6 i, if_pos (List.mem_range.mp hi)]
    by_cases h : i < cap <;> simp [h]
  rw [List.filter_congr hcong, filter_range_lt_length]

/-- C5, witness: three serial attempts against a fresh identity with daily
cap 2 give exactly two successes and a persisted counter of 2. -/
theorem C5_witness :
    successCount 3 (runRes 100 (freshSys 2 5 0) (serialSchedule 3)) = 2 ∧
      (runRes 100 (freshSys 2 5 0)
        (serialSchedule 3)).db.current_daily_sent = 2 := by
  have h := C5_amended_serial_reservations 3 2 5 0 100 (by omega)
    (by omega) (by omega)
  constructor
  · rw [h.1]; omega
  · rw [h.2]; omega

/-! ## C2: dispatch idempotence -/

theorem countPair_congr (db : List LogRow) (f : LogRow → LogRow)
    (hf : ∀ r, (f r).campaign_id = r.campaign_id ∧ (f r).contact_id = r.contact_id)
    (camp contact : Nat) :
    countPair (db.map f) camp contact = countPair db camp contact := by
  unfold countPair
  induction db with
  | nil => rfl
  | cons r rest ih =>
    have hp : ((f r).campaign_id == camp && (f r).contact_id == contact) =
        (r.campaign_id == camp && r.contact_id == contact) := by
      rw [(hf r).1, (hf r).2]
    simp only [List.map_cons, List.filter_cons, hp]
    split <;> simp [ih]

/-- C2, counterexample: dispatching the same campaign to the same
recipient twice creates two SendRecords for the (campaign, contact) pair,
and the sending identity's aggregate counter increments again on the
second run — per-recipient dispatch is not idempotent. -/
theorem C2_counterexample :
    countPair c2Run2.1 10 20 = 2 ∧
      c2Run1.2.1.map (fun c => c.total_emails_sent) = some 1 ∧
      c2Run2.2.1.map (fun c => c.total_emails_sent) = some 2 := by decide

/-- C2, amended: every call of `send_single_email` — successful or failed —
appends exactly one fresh SendRecord for its (campaign, recipient) pair;
there is no existing-record check and no uniqueness constraint, so `n`
dispatch runs leave `n` records for the pair and the identity's counters
grow with every successful run. -/
theorem C2_amended_no_dedup (db : List LogRow) (nextId campId contactId : Nat)
    (cfg : Option EmailDomainConfig) (now : Int) (ok : Bool) (err : String) :
    countPair (send_single_email db nextId campId contactId cfg now ok err).1
        campId contactId =
      countPair db campId contactId + 1 := by
  have hrow : countPair (db ++ [⟨nextId, campId, contactId, {}⟩]) campId
      contactId = countPair db campId contactId + 1 := by
    unfold countPair
    rw [List.filter_append]
    simp
  unfold send_single_email
  by_cases hok : ok
  · simp only [hok, if_true]
    rw [countPair_congr _ _ (fun r => by split <;> simp) campId contactId, hrow]
  · simp only [hok, if_false, Bool.false_eq_true]
    rw [countPair_congr _ _ (fun r => by split <;> simp) campId contactId, hrow]

/-! ## C3: audience resolution and subscription state -/

/-- C3, counterexample: a contact whose `subscription_status` is BOUNCED
but whose `is_subscribed` flag is still true is a member of the resolved
audience — resolution never looks at the status column. -/
theorem C3_counterexample :
    bouncedContact ∈ get_target_contacts [bouncedContact] 1 [] [] none ∧
      bouncedContact.subscription_status ≠ .SUBSCRIBED := by decide

/-- C3, amended: every member of the resolved audience belongs to the user
and has the Boolean `is_subscribed` flag set (so any contact whose flag is
cleared — in particular one that went through `Contact.unsubscribe`, which
clears flag and status together — is never a member), but the
`subscription_status` column itself is not consulted: a contact with a
non-subscribed status such as BOUNCED and a still-true flag is included. -/
theorem C3_amended_audience_flag (contacts : List Contact) (userId : Nat)
    (tls els : List (List String)) (seg : Option (List String)) :
    (∀ c ∈ get_target_contacts contacts userId tls els seg,
        c.is_subscribed = true ∧ c.userId = userId ∧ c ∈ contacts) ∧
    (∀ c : Contact, c.is_subscribed = false →
        c ∉ get_target_contacts contacts userId tls els seg) := by
  have hbase : ∀ c ∈ get_target_contacts contacts userId tls els seg,
      c ∈ contacts.filter (fun c => c.userId == userId && c.is_subscribed) := by
    intro c hc
    unfold get_target_contacts at hc
    cases seg with
    | none =>
      dsimp only at hc
      split_ifs at hc <;>
        (simp only [List.mem_filter] at hc ⊢
         tauto)
    | some s =>
      dsimp only at hc
      split_ifs at hc <;>
        (simp only [List.mem_filter] at hc ⊢
         tauto)
  constructor
  · intro c hc
    have h := List.mem_filter.mp (hbase c hc)
    have h2 := h.2
    simp only [Bool.and_eq_true, beq_iff_eq] at h2
    exact ⟨h2.2, h2.1, h.1⟩
  · intro c hflag hc
    have h := List.mem_filter.mp (hbase c hc)
    have h2 := h.2
    simp only [Bool.and_eq_true, beq_iff_eq] at h2
    rw [hflag] at h2
    exact Bool.false_ne_true h2.2

/-- C3, witness: the subscribed contact is resolved, and the amended
theorem certifies its flag. -/
theorem C3_witness :
    adaContact ∈ get_target_contacts [adaContact, bouncedContact] 1 [] [] none ∧
      adaContact.is_subscribed = true := by
  refine ⟨by decide, ?_⟩
  exact ((C3_amended_audience_flag [adaContact, bouncedContact] 1 [] [] none).1
    adaContact (by decide)).1

end AfriMail
